import Mathlib

/-!
Verification of the Tensr C library (dense strided tensor engine) against its
specification.  The C sources under `src/` are shallowly embedded below:

* C enums (`TensrDType`, `TensrDevice`) are machine integers, embedded as
  `Nat` constants, and every dtype dispatch is the same `if`-chain of
  equality tests that the C performs.
* The element buffer (`void* data`) is a `List Val`, where `Val` tags the
  bit pattern stored in a cell.  A cell that was never written (the contents
  of a fresh `malloc`) is `Val.unset`.  Floating-point payloads are embedded
  as exact rationals: none of the properties proved here depend on rounding,
  and every concrete value exercised (small integers, 1/2, FLT_MAX, ...) is
  exactly representable in the corresponding IEEE format.
* `malloc` failure (the C functions return `NULL` when allocation fails) is
  not modelled: allocation always succeeds.  Functions whose only `NULL`
  return is the allocation path are therefore total; functions with a real
  failure path (validation checks, unimplemented branches) return `Option`.
* Reading memory out of bounds and reading uninitialized stack variables are
  undefined behavior in C; the embedding keeps such paths total with
  documented stand-in values, and no theorem below relies on them.
-/

/-- Dtype tags, in the declaration order of the C `TensrDType` enum. -/
def TENSR_FLOAT32 : Nat := 0

/-- Dtype tag of `double` payloads. -/
def TENSR_FLOAT64 : Nat := 1

/-- Dtype tag of `int32_t` payloads. -/
def TENSR_INT32 : Nat := 2

/-- Dtype tag of `int64_t` payloads. -/
def TENSR_INT64 : Nat := 3

/-- Dtype tag of `uint8_t` payloads. -/
def TENSR_UINT8 : Nat := 4

/-- Dtype tag of `bool` payloads. -/
def TENSR_BOOL : Nat := 5

/-- Device tags, in the declaration order of the C `TensrDevice` enum. -/
def TENSR_CPU : Nat := 0

/-- Device tag for CUDA (placeholder backend). -/
def TENSR_CUDA : Nat := 1

/-- Contents of one buffer cell.  `unset` is a cell that has never been
written (fresh `malloc` memory).  Float cells carry exact rationals. -/
inductive Val where
  | unset : Val
  | fval : ℚ → Val
  | ival : Int → Val
  | uval : Nat → Val
  | bval : Bool → Val
deriving DecidableEq

/-- Reading a cell as a floating value.  A non-float cell corresponds to
reinterpreting foreign bits as a float in C; the stand-in result 0 is never
relied upon by any theorem. -/
def Val.q : Val → ℚ
  | .fval x => x
  | _ => 0

/-- `tensr_dtype_size` from `core/tensor.c`: byte width of a dtype tag,
0 for an unrecognized tag. -/
def tensr_dtype_size (dtype : Nat) : Nat :=
  if dtype = TENSR_FLOAT32 then 4
  else if dtype = TENSR_FLOAT64 then 8
  else if dtype = TENSR_INT32 then 4
  else if dtype = TENSR_INT64 then 8
  else if dtype = TENSR_UINT8 then 1
  else if dtype = TENSR_BOOL then 1
  else 0

/-- `compute_size` from `core/tensor.c`: running product of the extents,
accumulated left to right exactly like the C loop. -/
def compute_size (shape : List Nat) : Nat :=
  shape.foldl (· * ·) 1

/-- `compute_strides` from `core/tensor.c`: row-major strides, i.e.
`strides[i] = strides[i+1] * shape[i+1]` with `strides[ndim-1] = 1`,
so position `i` holds the product of the extents after `i`. -/
def compute_strides : List Nat → List Nat
  | [] => []
  | _ :: rest => compute_size rest :: compute_strides rest

/-- The C `Tensor` struct.  The C field `ndim` always equals the length of
the `shape` array for every tensor the library constructs, so the embedding
derives it (`Tensor.ndim`) instead of storing it. -/
structure Tensor where
  data : List Val
  shape : List Nat
  strides : List Nat
  size : Nat
  dtype : Nat
  device : Nat
  device_id : Int
  owns_data : Bool
deriving DecidableEq

/-- The `ndim` field of the C struct (maintained equal to the length of
`shape` by every constructor in the library). -/
def Tensor.ndim (t : Tensor) : Nat := t.shape.length

/-- Reading `n` cells from the start of a buffer, as the C element loops do;
reading past the end of the list yields `unset` (out-of-bounds reads are
undefined behavior in C and never exercised by the theorems). -/
def buf_read (d : List Val) (n : Nat) : List Val :=
  (List.range n).map (fun i => d.getD i .unset)

/-- `tensr_create` from `core/tensor.c`: fresh tensor with row-major strides
and an uninitialized payload of `compute_size shape` cells. -/
def tensr_create (shape : List Nat) (dtype device : Nat) : Tensor :=
  { data := List.replicate (compute_size shape) .unset
    shape := shape
    strides := compute_strides shape
    size := compute_size shape
    dtype := dtype
    device := device
    device_id := 0
    owns_data := true }

/-- The cell value produced by `memset(buffer, 0, ...)` when the buffer is
then read at the given dtype: the all-zero bit pattern decodes to the zero
of each recognized dtype. -/
def zero_val (dtype : Nat) : Val :=
  if dtype = TENSR_FLOAT32 ∨ dtype = TENSR_FLOAT64 then .fval 0
  else if dtype = TENSR_INT32 ∨ dtype = TENSR_INT64 then .ival 0
  else if dtype = TENSR_UINT8 then .uval 0
  else if dtype = TENSR_BOOL then .bval false
  else .unset

/-- `tensr_zeros` from `core/tensor.c`: create then `memset` 0. -/
def tensr_zeros (shape : List Nat) (dtype device : Nat) : Tensor :=
  let t := tensr_create shape dtype device
  { t with data := List.replicate t.size (zero_val dtype) }

/-- `tensr_ones` from `core/tensor.c`.  Note the C fills only the four
numeric dtypes; `uint8`/`bool` buffers are left uninitialized. -/
def tensr_ones (shape : List Nat) (dtype device : Nat) : Tensor :=
  let t := tensr_create shape dtype device
  if dtype = TENSR_FLOAT32 then { t with data := List.replicate t.size (.fval 1) }
  else if dtype = TENSR_FLOAT64 then { t with data := List.replicate t.size (.fval 1) }
  else if dtype = TENSR_INT32 then { t with data := List.replicate t.size (.ival 1) }
  else if dtype = TENSR_INT64 then { t with data := List.replicate t.size (.ival 1) }
  else t

/-- The C cast `(int..._t) value` for a `double` value: truncation toward
zero. -/
def rat_trunc (value : ℚ) : Int :=
  value.num.tdiv value.den

/-- `tensr_full` from `core/tensor.c`: like `ones` but with a given fill
value; again `uint8`/`bool` buffers are left uninitialized. -/
def tensr_full (shape : List Nat) (value : ℚ) (dtype device : Nat) : Tensor :=
  let t := tensr_create shape dtype device
  if dtype = TENSR_FLOAT32 then { t with data := List.replicate t.size (.fval value) }
  else if dtype = TENSR_FLOAT64 then { t with data := List.replicate t.size (.fval value) }
  else if dtype = TENSR_INT32 then { t with data := List.replicate t.size (.ival (rat_trunc value)) }
  else if dtype = TENSR_INT64 then { t with data := List.replicate t.size (.ival (rat_trunc value)) }
  else t

/-- `tensr_arange` from `core/tensor.c`: `n = ceil((stop-start)/step)`
values `start + i*step` in a 1-D tensor.  (A negative or non-finite count
cast to `size_t` is undefined behavior in C; `Int.toNat` is the stand-in.) -/
def tensr_arange (start stop step : ℚ) (dtype device : Nat) : Tensor :=
  let n : Nat := ((stop - start) / step).ceil.toNat
  let t := tensr_create [n] dtype device
  if dtype = TENSR_FLOAT32 then { t with data := (List.range n).map (fun i => .fval (start + i * step)) }
  else if dtype = TENSR_FLOAT64 then { t with data := (List.range n).map (fun i => .fval (start + i * step)) }
  else if dtype = TENSR_INT32 then { t with data := (List.range n).map (fun i => .ival (rat_trunc (start + i * step))) }
  else if dtype = TENSR_INT64 then { t with data := (List.range n).map (fun i => .ival (rat_trunc (start + i * step))) }
  else t

/-- `tensr_linspace` from `core/tensor.c`: `num` values spaced by
`(stop-start)/(num-1)`; only float dtypes are filled.  (For `num ≤ 1` the C
divides by zero in `double`; the exact-rational stand-in yields step 0 and is
never relied upon.) -/
def tensr_linspace (start stop : ℚ) (num : Nat) (dtype device : Nat) : Tensor :=
  let t := tensr_create [num] dtype device
  let step := (stop - start) / ((num : ℚ) - 1)
  if dtype = TENSR_FLOAT32 then { t with data := (List.range num).map (fun i => .fval (start + i * step)) }
  else if dtype = TENSR_FLOAT64 then { t with data := (List.range num).map (fun i => .fval (start + i * step)) }
  else t

/-- `tensr_eye` from `core/tensor.c`: zeros `[n,n]` then ones written at the
diagonal positions `i*n + i` for the four numeric dtypes. -/
def tensr_eye (n : Nat) (dtype device : Nat) : Tensor :=
  let t := tensr_zeros [n, n] dtype device
  if dtype = TENSR_FLOAT32 then
    { t with data := (List.range (n * n)).map (fun idx => if idx / n = idx % n then .fval 1 else .fval 0) }
  else if dtype = TENSR_FLOAT64 then
    { t with data := (List.range (n * n)).map (fun idx => if idx / n = idx % n then .fval 1 else .fval 0) }
  else if dtype = TENSR_INT32 then
    { t with data := (List.range (n * n)).map (fun idx => if idx / n = idx % n then .ival 1 else .ival 0) }
  else if dtype = TENSR_INT64 then
    { t with data := (List.range (n * n)).map (fun idx => if idx / n = idx % n then .ival 1 else .ival 0) }
  else t

/-- `tensr_copy` from `core/tensor.c`: fresh tensor with `src`'s shape,
dtype and device (`device_id` reset to 0 by `tensr_create`), payload copied
by `memcpy` of `src.size` elements. -/
def tensr_copy (src : Tensor) : Tensor :=
  { tensr_create src.shape src.dtype src.device with data := buf_read src.data src.size }

/-- `tensr_reshape` from `core/tensor.c`: `NULL` unless the new shape has
the same total size; otherwise a non-owning view aliasing the payload, with
fresh contiguous strides. -/
def tensr_reshape (t : Tensor) (new_shape : List Nat) : Option Tensor :=
  if compute_size new_shape ≠ t.size then none
  else some
    { data := t.data
      shape := new_shape
      strides := compute_strides new_shape
      size := t.size
      dtype := t.dtype
      device := t.device
      device_id := t.device_id
      owns_data := false }

/-- `tensr_transpose` from `core/tensor.c`: with no axes given, the reversed
axis order is used.  The C allocates a fresh tensor, overwrites its shape
with the permuted extents and recomputes contiguous strides — but never
copies a single element: the returned payload is the uninitialized `malloc`
memory of `tensr_create`. -/
def tensr_transpose (t : Tensor) (axes : List Nat) : Tensor :=
  let ax := if axes.length = 0 then (List.range t.ndim).reverse else axes
  let result := tensr_create t.shape t.dtype t.device
  let nshape := ax.map (fun i => t.shape.getD i 0)
  { result with shape := nshape, strides := compute_strides nshape }

/-- Applying a C binary operation to two cells read as floats.  When either
cell does not hold a float the C reinterprets foreign or uninitialized bits;
the result cell is modelled as `unset`. -/
def liftQ (f : ℚ → ℚ → ℚ) : Val → Val → Val
  | .fval x, .fval y => .fval (f x y)
  | _, _ => .unset

/-- Applying a C binary operation to two cells read as machine integers. -/
def liftZ (f : Int → Int → Int) : Val → Val → Val
  | .ival x, .ival y => .ival (f x y)
  | _, _ => .unset

/-- The `BINARY_OP` macro from `ops/arithmetic.c`: `NULL` when the total
sizes or the dtypes differ (shapes are *not* compared), else a fresh tensor
with `a`'s shape/dtype/device whose payload is filled elementwise for the
four numeric dtypes and left uninitialized for `uint8`/`bool`. -/
def binary_op (fq : ℚ → ℚ → ℚ) (fz : Int → Int → Int) (a b : Tensor) : Option Tensor :=
  if a.size ≠ b.size ∨ a.dtype ≠ b.dtype then none
  else
    let result := tensr_create a.shape a.dtype a.device
    if a.dtype = TENSR_FLOAT32 then
      some { result with data := (List.range a.size).map (fun i => liftQ fq (a.data.getD i .unset) (b.data.getD i .unset)) }
    else if a.dtype = TENSR_FLOAT64 then
      some { result with data := (List.range a.size).map (fun i => liftQ fq (a.data.getD i .unset) (b.data.getD i .unset)) }
    else if a.dtype = TENSR_INT32 then
      some { result with data := (List.range a.size).map (fun i => liftZ fz (a.data.getD i .unset) (b.data.getD i .unset)) }
    else if a.dtype = TENSR_INT64 then
      some { result with data := (List.range a.size).map (fun i => liftZ fz (a.data.getD i .unset) (b.data.getD i .unset)) }
    else some result

/-- `tensr_add` (instance of `BINARY_OP(add, +)`). -/
def tensr_add : Tensor → Tensor → Option Tensor := binary_op (· + ·) (· + ·)

/-- `tensr_sub` (instance of `BINARY_OP(sub, -)`). -/
def tensr_sub : Tensor → Tensor → Option Tensor := binary_op (· - ·) (· - ·)

/-- `tensr_mul` (instance of `BINARY_OP(mul, *)`). -/
def tensr_mul : Tensor → Tensor → Option Tensor := binary_op (· * ·) (· * ·)

/-- `tensr_div` (instance of `BINARY_OP(div, /)`); C integer division
truncates toward zero. -/
def tensr_div : Tensor → Tensor → Option Tensor := binary_op (· / ·) Int.tdiv

/-- `tensr_sum` from `ops/reduction.c`.  With no axes: a single-cell tensor
holding the float accumulation (non-float dtypes fall through all branches
and the cell stays uninitialized).  With any non-empty axis list the C
returns `NULL` — the axis-restricted reduction is unimplemented.  (When
`keepdims` is set the C passes `ndim = t->ndim` while the local shape array
has one entry, an out-of-bounds read; the model uses the single entry.) -/
def tensr_sum (t : Tensor) (axes : List Int) (keepdims : Bool) : Option Tensor :=
  if axes.length = 0 then
    let result := tensr_create [1] t.dtype t.device
    if t.dtype = TENSR_FLOAT32 then
      some { result with data := [.fval ((buf_read t.data t.size).foldl (fun s v => s + v.q) 0)] }
    else if t.dtype = TENSR_FLOAT64 then
      some { result with data := [.fval ((buf_read t.data t.size).foldl (fun s v => s + v.q) 0)] }
    else some result
  else none

/-- Largest finite `float` value, `FLT_MAX = (2^24 - 1) * 2^104`. -/
def FLT_MAX : ℚ := (2 ^ 24 - 1) * 2 ^ 104

/-- Largest finite `double` value, `DBL_MAX = (2^53 - 1) * 2^971`. -/
def DBL_MAX : ℚ := (2 ^ 53 - 1) * 2 ^ 971

/-- `tensr_max` from `ops/reduction.c`: always a 1-cell tensor (the `axes`
and `keepdims` arguments are ignored by the C); the float branches fold the
strict-greater test over the payload starting from the `-FLT_MAX` /
`-DBL_MAX` sentinel, so an empty tensor yields the sentinel itself. -/
def tensr_max (t : Tensor) (axes : List Int) (keepdims : Bool) : Tensor :=
  let result := tensr_create [1] t.dtype t.device
  if t.dtype = TENSR_FLOAT32 then
    { result with data := [.fval ((buf_read t.data t.size).foldl (fun m v => if v.q > m then v.q else m) (-FLT_MAX))] }
  else if t.dtype = TENSR_FLOAT64 then
    { result with data := [.fval ((buf_read t.data t.size).foldl (fun m v => if v.q > m then v.q else m) (-DBL_MAX))] }
  else result

/-- `tensr_min` from `ops/reduction.c`: dual of `tensr_max`, folding the
strict-less test from the `FLT_MAX` / `DBL_MAX` sentinel. -/
def tensr_min (t : Tensor) (axes : List Int) (keepdims : Bool) : Tensor :=
  let result := tensr_create [1] t.dtype t.device
  if t.dtype = TENSR_FLOAT32 then
    { result with data := [.fval ((buf_read t.data t.size).foldl (fun m v => if v.q < m then v.q else m) FLT_MAX)] }
  else if t.dtype = TENSR_FLOAT64 then
    { result with data := [.fval ((buf_read t.data t.size).foldl (fun m v => if v.q < m then v.q else m) DBL_MAX)] }
  else result

/-- The inner `for p` loop of `tensr_matmul`: `sum += da[i*k+p] * db[p*n+j]`
accumulated left to right from 0. -/
def mat_inner (a b : Tensor) (k n i j : Nat) : ℚ :=
  (List.range k).foldl
    (fun s p => s + (a.data.getD (i * k + p) .unset).q * (b.data.getD (p * n + j) .unset).q) 0

/-- `tensr_matmul` from `linalg/linalg.c`: both operands must be 2-D with
`a.shape[1] = b.shape[0]` (dtypes are *not* compared).  The float branches
run the naive triple loop over a zero-filled result; every other dtype skips
the loops entirely, so the zero fill is returned unchanged.  The C writes
`dr[i*n+j]` for every `i < m`, `j < n`; the flat cell at `idx` therefore
holds the inner-loop sum for row `idx / n`, column `idx % n`. -/
def tensr_matmul (a b : Tensor) : Option Tensor :=
  if a.ndim ≠ 2 ∨ b.ndim ≠ 2 ∨ a.shape.getD 1 0 ≠ b.shape.getD 0 0 then none
  else
    let m := a.shape.getD 0 0
    let n := b.shape.getD 1 0
    let k := a.shape.getD 1 0
    let result := tensr_zeros [m, n] a.dtype a.device
    if a.dtype = TENSR_FLOAT32 then
      some { result with data := (List.range (m * n)).map (fun idx =>
        .fval (mat_inner a b k n (idx / n) (idx % n))) }
    else if a.dtype = TENSR_FLOAT64 then
      some { result with data := (List.range (m * n)).map (fun idx =>
        .fval (mat_inner a b k n (idx / n) (idx % n))) }
    else some result

/-- `tensr_inv` from `linalg/linalg.c`: after checking the input is square
2-D the C simply returns `tensr_copy(t)` — a stub, with no inversion and no
singularity check. -/
def tensr_inv (t : Tensor) : Option Tensor :=
  if t.ndim ≠ 2 ∨ t.shape.getD 0 0 ≠ t.shape.getD 1 0 then none
  else some (tensr_copy t)

/-- One record of the binary tensor file: either a metadata integer
(`ndim`, `dtype` tag, `size`, or one shape extent, each written by one
`fwrite` of a fixed-width integer) or one payload element. -/
inductive StreamItem where
  | meta : Nat → StreamItem
  | elem : Val → StreamItem
deriving DecidableEq

/-- `tensr_save` from `io/io.c`: writes `ndim`, the dtype tag, `size`, the
`ndim` shape extents, then the `size` payload elements. -/
def tensr_save (t : Tensor) : List StreamItem :=
  .meta t.ndim :: .meta t.dtype :: .meta t.size ::
    (t.shape.map .meta ++ (buf_read t.data t.size).map .elem)

/-- One metadata `fread`.  On a truncated or misaligned file the C leaves
the destination variable uninitialized and continues — undefined behavior;
the model returns `none` there and no theorem relies on that path. -/
def read_meta : List StreamItem → Option (Nat × List StreamItem)
  | .meta n :: rest => some (n, rest)
  | _ => none

/-- `fread` of `n` metadata integers (the shape array). -/
def read_meta_list : Nat → List StreamItem → Option (List Nat × List StreamItem)
  | 0, s => some ([], s)
  | n + 1, .meta v :: rest => (read_meta_list n rest).map (fun p => (v :: p.1, p.2))
  | _ + 1, _ => none

/-- `fread` of up to `n` payload elements: a short read simply stops at the
end of the file (the C never checks the return count). -/
def take_elems : Nat → List StreamItem → List Val
  | 0, _ => []
  | n + 1, .elem v :: rest => v :: take_elems n rest
  | _ + 1, _ => []

/-- The effect of `fread(buffer, width, n)` on a fresh buffer: the elements
actually read overwrite the front, the rest of the buffer keeps its previous
(uninitialized) contents. -/
def overwrite_front (buf fresh : List Val) : List Val :=
  fresh ++ buf.drop fresh.length

/-- `tensr_load` from `io/io.c`.  `none` when the file cannot be opened
(`fopen` returning `NULL` is the only checked failure).  Otherwise the C
reads `ndim`, the dtype tag (NOT validated against the recognized tags),
`size`, the shape, rebuilds the tensor with `tensr_create(shape, ndim,
dtype, TENSR_CPU)` — which recomputes `size` from the shape — and `fread`s
`size` elements of width `tensr_dtype_size dtype` into the payload; a width
of 0 (unrecognized tag) reads nothing, and a short payload read goes
unnoticed. -/
def tensr_load (file : Option (List StreamItem)) : Option Tensor :=
  match file with
  | none => none
  | some s0 =>
    match read_meta s0 with
    | none => none
    | some (ndim, s1) =>
      match read_meta s1 with
      | none => none
      | some (dtype, s2) =>
        match read_meta s2 with
        | none => none
        | some (size, s3) =>
          match read_meta_list ndim s3 with
          | none => none
          | some (shape, s4) =>
            let t := tensr_create shape dtype TENSR_CPU
            let payload := if tensr_dtype_size dtype = 0 then [] else take_elems size s4
            some { t with data := overwrite_front t.data payload }

/-- The process-wide random-generator state: the library's `rng_state`
variable from `random/random.c` together with the hidden state of the C
library generator behind `srand`/`rand`. -/
structure RandState where
  rng_state : Nat
  libc : Nat
deriving DecidableEq

/-- `tensr_seed` from `random/random.c`: stores the (32-bit wrapped) seed in
`rng_state` and calls `srand(seed)`, resetting the C library generator. -/
def tensr_seed (seed : Nat) (_st : RandState) : RandState :=
  { rng_state := seed % 2 ^ 32, libc := seed % 2 ^ 32 }

/-- Model of the C library `rand` (external to this repository): the ISO C
sample linear congruential generator.  Every property proved below depends
only on `rand` being a deterministic function of the `srand`-seeded state,
not on this particular recurrence. -/
def c_rand (st : Nat) : Nat × Nat :=
  let st2 := (1103515245 * st + 12345) % 2 ^ 32
  (st2 / 65536 % 32768, st2)

/-- `rand_uniform` from `random/random.c`: `rand() / RAND_MAX`. -/
def rand_uniform (st : Nat) : ℚ × Nat :=
  let r := c_rand st
  ((r.1 : ℚ) / 32767, r.2)

/-- The fill loop of `tensr_rand`: `n` successive uniform draws. -/
def gen_uniform_list : Nat → Nat → List ℚ × Nat
  | 0, st => ([], st)
  | n + 1, st =>
    let u := rand_uniform st
    let rest := gen_uniform_list n u.2
    (u.1 :: rest.1, rest.2)

/-- `tensr_rand` from `random/random.c`: whenever `rng_state` is 0 — which
happens both when the program never seeded and when it called
`tensr_seed(0)` — the generator is first re-seeded from `time(NULL)`
(argument `now`); then a fresh float32 tensor is filled with uniform
draws. -/
def tensr_rand (shape : List Nat) (device : Nat) (now : Nat) (st : RandState) : Tensor × RandState :=
  let st1 := if st.rng_state = 0 then tensr_seed now st else st
  let t := tensr_create shape TENSR_FLOAT32 device
  let g := gen_uniform_list t.size st1.libc
  ({ t with data := g.1.map (fun u => .fval u) }, { st1 with libc := g.2 })

/-- Offset computation shared by `tensr_get`/`tensr_set` in `io/io.c`: the
flat buffer position of a multi-index is the stride dot product. -/
def flat_offset (strides idx : List Nat) : Nat :=
  (List.zipWith (· * ·) idx strides).sum

/-- The logical element of a tensor at a multi-index: the buffer cell at the
stride dot product, exactly what `tensr_get` reads. -/
def logical_elem (t : Tensor) (idx : List Nat) : Val :=
  t.data.getD (flat_offset t.strides idx) .unset

/-- Well-formedness maintained by every constructor of the library: the
stored `size` is the shape product, the payload has `size` cells, and the
strides are the contiguous row-major strides of the shape. -/
def WF (t : Tensor) : Prop :=
  t.size = compute_size t.shape ∧ t.data.length = t.size ∧ t.strides = compute_strides t.shape

instance (t : Tensor) : Decidable (WF t) := by
  unfold WF; infer_instance

/-- The contiguity/size invariant of the specification: the last stride is
1, each stride is the next stride times the next extent, and the stored size
is the shape product. -/
def contiguous_inv (t : Tensor) : Prop :=
  t.strides.getD (t.shape.length - 1) 0 = 1 ∧
  (∀ i < t.shape.length - 1,
    t.strides.getD i 0 = t.strides.getD (i + 1) 0 * t.shape.getD (i + 1) 0) ∧
  t.size = compute_size t.shape

instance (t : Tensor) : Decidable (contiguous_inv t) := by
  unfold contiguous_inv; infer_instance

/-- The standard matrix-product entry, written from the specification: the
`(i,j)` entry of the product is the sum over `p` of `a[i,p] * b[p,j]`, read
from the row-major buffers. -/
def matmul_spec_entry (a b : Tensor) (k n i j : Nat) : ℚ :=
  ((List.range k).map
    (fun p => (a.data.getD (i * k + p) .unset).q * (b.data.getD (p * n + j) .unset).q)).sum

/-- Concrete 2-by-2 float32 matrix diag(2,2) (as `tensr_from_array` would
build it): a non-singular input for exercising `tensr_inv`. -/
def inv_input : Tensor :=
  { data := [.fval 2, .fval 0, .fval 0, .fval 2], shape := [2, 2], strides := [2, 1],
    size := 4, dtype := TENSR_FLOAT32, device := TENSR_CPU, device_id := 0, owns_data := true }

/-- A serialized file whose dtype tag 6 is not one of the six recognized
tags (`ndim` 1, tag 6, size 1, shape `[1]`, no payload). -/
def bad_tag_file : List StreamItem := [.meta 1, .meta 6, .meta 1, .meta 1]

/-- A serialized float32 file declaring a 2-element payload but truncated
after the first element. -/
def short_payload_file : List StreamItem :=
  [.meta 1, .meta 0, .meta 2, .meta 2, .elem (.fval 7)]

/-- Concrete round-trip input: a 2-by-2 int64 tensor of threes. -/
def rt_input : Tensor := tensr_full [2, 2] 3 TENSR_INT64 TENSR_CPU

/-- Concrete matmul operand with inner dimension 3. -/
def mm_a : Tensor := tensr_ones [2, 3] TENSR_FLOAT32 TENSR_CPU

/-- Concrete matmul operand with leading dimension 2 (mismatching `mm_a`). -/
def mm_b : Tensor := tensr_ones [2, 2] TENSR_FLOAT32 TENSR_CPU

/-- Concrete addition operand: two cells of 3/2. -/
def add_wit_a : Tensor := tensr_full [2] (3 / 2) TENSR_FLOAT32 TENSR_CPU

/-- Concrete addition operand: two cells of 1. -/
def add_wit_b : Tensor := tensr_ones [2] TENSR_FLOAT32 TENSR_CPU

/-- The tensor `tensr_add add_wit_a add_wit_b` evaluates to. -/
def add_wit_r : Tensor :=
  { data := [.fval (5 / 2), .fval (5 / 2)], shape := [2], strides := [1],
    size := 2, dtype := TENSR_FLOAT32, device := TENSR_CPU, device_id := 0, owns_data := true }

/-- Reading every position of a list with `getD` reproduces the list. -/
theorem map_getD_range {α : Type} (l : List α) (d : α) :
    (List.range l.length).map (fun i => l.getD i d) = l := by
  induction l with
  | nil => rfl
  | cons x xs ih =>
    rw [List.length_cons, List.range_succ_eq_map, List.map_cons, List.map_map]
    simp only [List.getD_cons_zero, Function.comp_def, List.getD_cons_succ]
    rw [ih]

/-- `buf_read` of the whole buffer is the buffer. -/
theorem buf_read_self (d : List Val) (n : Nat) (h : d.length = n) :
    buf_read d n = d := by
  subst h; exact map_getD_range d .unset

/-- Indexing the tabulation of `f` over `List.range n`. -/
theorem getD_map_range {α : Type} (f : Nat → α) (n i : Nat) (h : i < n) (d : α) :
    ((List.range n).map f).getD i d = f i := by
  rw [List.getD_eq_getElem?_getD, List.getElem?_map, List.getElem?_range h]
  rfl

/-- The C size accumulator is the list product. -/
theorem compute_size_eq_prod (shape : List Nat) : compute_size shape = shape.prod := by
  rw [compute_size, List.prod_eq_foldl]

/-- Peeling one extent off the size product. -/
theorem compute_size_cons (x : Nat) (l : List Nat) :
    compute_size (x :: l) = x * compute_size l := by
  rw [compute_size_eq_prod, compute_size_eq_prod, List.prod_cons]

/-- The strides array has one entry per dimension. -/
theorem compute_strides_length (s : List Nat) :
    (compute_strides s).length = s.length := by
  induction s with
  | nil => rfl
  | cons x xs ih => simp [compute_strides, ih]

/-- Each stride is the product of the extents after its dimension. -/
theorem compute_strides_getD (s : List Nat) (i : Nat) (h : i < s.length) :
    (compute_strides s).getD i 0 = compute_size (s.drop (i + 1)) := by
  induction s generalizing i with
  | nil => exact absurd h (Nat.not_lt_zero i)
  | cons x xs ih =>
    cases i with
    | zero => rfl
    | succ j =>
      rw [compute_strides, List.getD_cons_succ, List.drop_succ_cons]
      exact ih j (Nat.lt_of_succ_lt_succ h)

/-- Any tensor with a non-empty shape, contiguous strides and recomputed
size satisfies the invariant. -/
theorem contiguous_of (t : Tensor) (hS : t.shape ≠ [])
    (hst : t.strides = compute_strides t.shape)
    (hsz : t.size = compute_size t.shape) : contiguous_inv t := by
  have hpos : 0 < t.shape.length := List.length_pos.mpr hS
  refine ⟨?_, ?_, hsz⟩
  · rw [hst, compute_strides_getD _ _ (Nat.sub_lt hpos Nat.one_pos)]
    rw [Nat.sub_add_cancel hpos, List.drop_length]
    rfl
  · intro i hi
    have h1 : i < t.shape.length := Nat.lt_of_lt_of_le hi (Nat.sub_le _ _)
    have h2 : i + 1 < t.shape.length := by omega
    rw [hst, compute_strides_getD _ _ h1, compute_strides_getD _ _ h2]
    rw [List.drop_eq_getElem_cons h2, compute_size_cons]
    rw [List.getD_eq_getElem?_getD, List.getElem?_eq_getElem h2]
    exact Nat.mul_comm _ _

/-- Reading back a sequence of metadata records. -/
theorem read_meta_list_append (l : List Nat) (rest : List StreamItem) :
    read_meta_list l.length (l.map .meta ++ rest) = some (l, rest) := by
  induction l with
  | nil => rfl
  | cons x xs ih => simp [read_meta_list, ih]

/-- Reading back exactly the payload that was written. -/
theorem take_elems_exact (l : List Val) :
    take_elems l.length (l.map .elem) = l := by
  induction l with
  | nil => rfl
  | cons x xs ih => simp [take_elems, ih]

/-- Overwriting the whole buffer leaves exactly the fresh contents. -/
theorem overwrite_front_full (buf fresh : List Val) (h : fresh.length = buf.length) :
    overwrite_front buf fresh = fresh := by
  rw [overwrite_front, h, List.drop_length, List.append_nil]

/-- The C accumulation loop `s += g p` over `0..k-1` computes the sum of the
tabulated terms. -/
theorem foldl_add_map (g : Nat → ℚ) (l : List Nat) (init : ℚ) :
    l.foldl (fun s p => s + g p) init = init + (l.map g).sum := by
  induction l generalizing init with
  | nil => simp
  | cons x xs ih => rw [List.foldl_cons, ih, List.map_cons, List.sum_cons]; ring

/-- C1: the specification requires `tensr_transpose` to preserve logical
element values under the axis permutation (as a strided view or a
materialized copy).  The code does neither: it allocates a fresh buffer,
permutes the shape, recomputes contiguous strides for the *new* shape — and
never copies an element, so the whole returned payload is uninitialized
memory, and the transposed element of a concrete filled tensor differs from
the source element. -/
theorem transpose_payload_never_copied :
    (∀ (t : Tensor) (axes : List Nat),
      (tensr_transpose t axes).data = List.replicate (compute_size t.shape) Val.unset) ∧
    logical_elem (tensr_transpose (tensr_full [2, 3] 5 TENSR_FLOAT32 TENSR_CPU) []) [0, 0] ≠
      logical_elem (tensr_full [2, 3] 5 TENSR_FLOAT32 TENSR_CPU) [0, 0] := by
  constructor
  · intro t axes; rfl
  · decide

/-- C5: the specification requires axis-restricted `sum` to reduce over any
non-empty axis subset; the code returns `NULL` for every non-empty axis
list — the feature is unimplemented.  In particular summing a 2-by-3 ones
tensor over axis 0 fails instead of producing the column sums. -/
theorem sum_axes_unimplemented :
    (∀ (t : Tensor) (a : Int) (rest : List Int) (kd : Bool),
      tensr_sum t (a :: rest) kd = none) ∧
    tensr_sum (tensr_ones [2, 3] TENSR_FLOAT32 TENSR_CPU) [0] false = none := by
  exact ⟨fun t a rest kd => rfl, rfl⟩

/-- C6: the specification requires `tensr_inv` to return the true matrix
inverse and to reject singular inputs; the code returns `tensr_copy(t)` for
every square input.  On diag(2,2) the result is diag(2,2) rather than
diag(1/2,1/2), `t * inv(t)` is diag(4,4) rather than the identity, and the
all-zero (singular) matrix is not rejected. -/
theorem inv_returns_copy_stub :
    tensr_inv inv_input = some (tensr_copy inv_input) ∧
    (tensr_inv inv_input).map (fun r => r.data) =
      some [Val.fval 2, Val.fval 0, Val.fval 0, Val.fval 2] ∧
    (tensr_inv inv_input).map (fun r => r.data) ≠
      some [Val.fval (1 / 2), Val.fval 0, Val.fval 0, Val.fval (1 / 2)] ∧
    ((tensr_inv inv_input).bind (fun r => tensr_matmul inv_input r)).map (fun r => r.data) =
      some [Val.fval 4, Val.fval 0, Val.fval 0, Val.fval 4] ∧
    [Val.fval 4, Val.fval 0, Val.fval 0, Val.fval 4] ≠ (tensr_eye 2 TENSR_FLOAT32 TENSR_CPU).data ∧
    tensr_inv (tensr_zeros [2, 2] TENSR_FLOAT32 TENSR_CPU) ≠ none := by
  have h2 : (tensr_inv inv_input).map (fun r => r.data) =
      some [Val.fval 2, Val.fval 0, Val.fval 0, Val.fval 2] := by decide
  refine ⟨rfl, h2, ?_, ?_, ?_, by decide⟩
  · rw [h2]
    simp only [ne_eq, Option.some.injEq, List.cons.injEq, Val.fval.injEq]
    norm_num
  · show (tensr_matmul inv_input (tensr_copy inv_input)).map (fun r => r.data) =
      some [Val.fval 4, Val.fval 0, Val.fval 0, Val.fval 4]
    norm_num [tensr_matmul, mat_inner, inv_input, tensr_copy, tensr_create, tensr_zeros,
      buf_read, compute_size, compute_strides, zero_val, Tensor.ndim, Val.q,
      TENSR_FLOAT32, TENSR_FLOAT64, TENSR_CPU,
      show List.range 2 = [0, 1] from rfl, show List.range 4 = [0, 1, 2, 3] from rfl]
  · decide

/-- C8: the specification promises identical sequences for every seed; but
`tensr_rand` re-seeds from the wall clock whenever `rng_state` is 0, which
is exactly the state `tensr_seed(0)` leaves behind — so after seeding with
0, two runs observing different clock values produce different tensors. -/
theorem rand_after_seed_zero_depends_on_clock :
    (tensr_seed 0 ⟨123, 456⟩).rng_state = 0 ∧
    (tensr_rand [1] TENSR_CPU 1 (tensr_seed 0 ⟨123, 456⟩)).1.data ≠
      (tensr_rand [1] TENSR_CPU 2 (tensr_seed 0 ⟨123, 456⟩)).1.data := by
  refine ⟨rfl, ?_⟩
  norm_num [tensr_rand, tensr_seed, gen_uniform_list, rand_uniform, c_rand,
    tensr_create, compute_size, TENSR_FLOAT32, TENSR_CPU]

/-- C4 counterexample: the claim says `tensr_load` fails on an unrecognized
dtype tag; the code never validates the tag, and loading a file with tag 6
returns a constructed tensor. -/
theorem load_accepts_unknown_dtype_tag :
    tensr_dtype_size 6 = 0 ∧ (tensr_load (some bad_tag_file)).isSome = true := by
  decide

/-- C4 (amended): the only detected I/O failure is a file that cannot be
opened.  An unrecognized dtype tag is accepted (the payload `fread` has
width 0 and reads nothing), and a truncated payload is accepted with the
missing cells left uninitialized. -/
theorem load_open_failure_only :
    tensr_load none = none ∧
    (tensr_load (some bad_tag_file)).map (fun r => r.dtype) = some 6 ∧
    (tensr_load (some short_payload_file)).map (fun r => r.data) =
      some [Val.fval 7, Val.unset] := by
  refine ⟨rfl, by decide, by decide⟩

/-- C2 counterexample: the claim says mismatched *shapes* make `tensr_add`
fail; the code compares only total sizes, so adding a `[1,2]` tensor to a
`[2,1]` tensor succeeds. -/
theorem add_shape_mismatch_not_rejected :
    (tensr_ones [1, 2] TENSR_FLOAT32 TENSR_CPU).shape ≠
      (tensr_ones [2, 1] TENSR_FLOAT32 TENSR_CPU).shape ∧
    (tensr_add (tensr_ones [1, 2] TENSR_FLOAT32 TENSR_CPU)
      (tensr_ones [2, 1] TENSR_FLOAT32 TENSR_CPU)).isSome = true := by
  decide

/-- C7 counterexample: the claim asserts the standard matrix product for
every supported dtype; for int32 operands the code skips the computation
and returns the zero-filled result, so `ones([1,1]) @ ones([1,1])` is 0
where the standard product is 1. -/
theorem matmul_int32_zero_result :
    (tensr_matmul (tensr_ones [1, 1] TENSR_INT32 TENSR_CPU)
      (tensr_ones [1, 1] TENSR_INT32 TENSR_CPU)).map (fun r => r.data) = some [Val.ival 0] ∧
    Val.ival 0 ≠ Val.ival 1 := by
  decide

/-- A `BINARY_OP` instance fails exactly on size or dtype mismatch. -/
theorem binary_op_none_iff (fq : ℚ → ℚ → ℚ) (fz : Int → Int → Int) (a b : Tensor) :
    binary_op fq fz a b = none ↔ a.size ≠ b.size ∨ a.dtype ≠ b.dtype := by
  unfold binary_op
  by_cases h : a.size ≠ b.size ∨ a.dtype ≠ b.dtype
  · simp [h]
  · rw [if_neg h]
    constructor
    · intro hc
      exfalso
      revert hc
      repeat' split
      all_goals simp
    · intro hc
      exact absurd hc h

/-- On success a `BINARY_OP` instance returns a fresh tensor with `a`'s
shape, dtype and device; float cells combine with `fq`, integer cells with
`fz`, and for any other dtype the payload stays uninitialized. -/
theorem binary_op_some_spec (fq : ℚ → ℚ → ℚ) (fz : Int → Int → Int) (a b r : Tensor)
    (h : binary_op fq fz a b = some r) :
    r.shape = a.shape ∧ r.dtype = a.dtype ∧ r.device = a.device ∧ r.owns_data = true ∧
    (∀ i x y, i < a.size → a.data.getD i .unset = .fval x → b.data.getD i .unset = .fval y →
      (a.dtype = TENSR_FLOAT32 ∨ a.dtype = TENSR_FLOAT64) →
      r.data.getD i .unset = Val.fval (fq x y)) ∧
    (∀ i x y, i < a.size → a.data.getD i .unset = .ival x → b.data.getD i .unset = .ival y →
      (a.dtype = TENSR_INT32 ∨ a.dtype = TENSR_INT64) →
      r.data.getD i .unset = Val.ival (fz x y)) ∧
    (a.dtype ≠ TENSR_FLOAT32 → a.dtype ≠ TENSR_FLOAT64 → a.dtype ≠ TENSR_INT32 →
      a.dtype ≠ TENSR_INT64 → r.data = List.replicate (compute_size a.shape) Val.unset) := by
  unfold binary_op at h
  split at h
  · exact Option.noConfusion h
  split at h
  · rename_i hd
    injection h with h
    subst h
    refine ⟨rfl, rfl, rfl, rfl, ?_, ?_, ?_⟩
    · intro i x y hi hx hy _
      rw [getD_map_range _ _ _ hi, hx, hy]
      rfl
    · intro i x y _ _ _ hdt
      rcases hdt with hdt | hdt <;> rw [hd] at hdt <;> exact absurd hdt (by decide)
    · intro hdt _ _ _
      exact absurd hd hdt
  split at h
  · rename_i hd
    injection h with h
    subst h
    refine ⟨rfl, rfl, rfl, rfl, ?_, ?_, ?_⟩
    · intro i x y hi hx hy _
      rw [getD_map_range _ _ _ hi, hx, hy]
      rfl
    · intro i x y _ _ _ hdt
      rcases hdt with hdt | hdt <;> rw [hd] at hdt <;> exact absurd hdt (by decide)
    · intro _ hdt _ _
      exact absurd hd hdt
  split at h
  · rename_i hd
    injection h with h
    subst h
    refine ⟨rfl, rfl, rfl, rfl, ?_, ?_, ?_⟩
    · intro i x y _ _ _ hdt
      rcases hdt with hdt | hdt <;> rw [hd] at hdt <;> exact absurd hdt (by decide)
    · intro i x y hi hx hy _
      rw [getD_map_range _ _ _ hi, hx, hy]
      rfl
    · intro _ _ hdt _
      exact absurd hd hdt
  split at h
  · rename_i hd
    injection h with h
    subst h
    refine ⟨rfl, rfl, rfl, rfl, ?_, ?_, ?_⟩
    · intro i x y _ _ _ hdt
      rcases hdt with hdt | hdt <;> rw [hd] at hdt <;> exact absurd hdt (by decide)
    · intro i x y hi hx hy _
      rw [getD_map_range _ _ _ hi, hx, hy]
      rfl
    · intro _ _ _ hdt
      exact absurd hd hdt
  · rename_i h1 h2 h3 h4
    injection h with h
    subst h
    refine ⟨rfl, rfl, rfl, rfl, ?_, ?_, ?_⟩
    · intro i x y _ _ _ hdt
      rcases hdt with hdt | hdt
      · exact absurd hdt h1
      · exact absurd hdt h2
    · intro i x y _ _ _ hdt
      rcases hdt with hdt | hdt
      · exact absurd hdt h3
      · exact absurd hdt h4
    · intro _ _ _ _
      rfl

/-- C2 (amended): `add`/`sub`/`mul`/`div` fail exactly when the total sizes
or the dtypes differ (equal-size shape mismatches are accepted); on success
`add` returns a fresh tensor with `a`'s shape/dtype/device whose float or
integer cells are the elementwise sums, while `uint8`/`bool` payloads are
left uninitialized. -/
theorem add_size_dtype_contract :
    (∀ a b : Tensor, tensr_add a b = none ↔ a.size ≠ b.size ∨ a.dtype ≠ b.dtype) ∧
    (∀ a b : Tensor, tensr_sub a b = none ↔ a.size ≠ b.size ∨ a.dtype ≠ b.dtype) ∧
    (∀ a b : Tensor, tensr_mul a b = none ↔ a.size ≠ b.size ∨ a.dtype ≠ b.dtype) ∧
    (∀ a b : Tensor, tensr_div a b = none ↔ a.size ≠ b.size ∨ a.dtype ≠ b.dtype) ∧
    (∀ a b r : Tensor, tensr_add a b = some r →
      r.shape = a.shape ∧ r.dtype = a.dtype ∧ r.device = a.device ∧ r.owns_data = true ∧
      (∀ i x y, i < a.size → a.data.getD i .unset = .fval x → b.data.getD i .unset = .fval y →
        (a.dtype = TENSR_FLOAT32 ∨ a.dtype = TENSR_FLOAT64) →
        r.data.getD i .unset = Val.fval (x + y)) ∧
      (∀ i x y, i < a.size → a.data.getD i .unset = .ival x → b.data.getD i .unset = .ival y →
        (a.dtype = TENSR_INT32 ∨ a.dtype = TENSR_INT64) →
        r.data.getD i .unset = Val.ival (x + y)) ∧
      (a.dtype ≠ TENSR_FLOAT32 → a.dtype ≠ TENSR_FLOAT64 → a.dtype ≠ TENSR_INT32 →
        a.dtype ≠ TENSR_INT64 → r.data = List.replicate (compute_size a.shape) Val.unset)) :=
  ⟨fun a b => binary_op_none_iff _ _ a b,
   fun a b => binary_op_none_iff _ _ a b,
   fun a b => binary_op_none_iff _ _ a b,
   fun a b => binary_op_none_iff _ _ a b,
   fun a b r h => binary_op_some_spec _ _ a b r h⟩

/-- Witness for C2: adding the concrete `[3/2, 3/2]` and `[1, 1]` float32
tensors succeeds and the first result cell is `3/2 + 1`. -/
theorem add_size_dtype_contract_witness :
    tensr_add add_wit_a add_wit_b = some add_wit_r ∧
    add_wit_r.data.getD 0 .unset = Val.fval (3 / 2 + 1) := by
  have hs : tensr_add add_wit_a add_wit_b = some add_wit_r := by
    show binary_op (· + ·) (· + ·) add_wit_a add_wit_b = some add_wit_r
    norm_num [binary_op, add_wit_a, add_wit_b, add_wit_r, tensr_full, tensr_ones,
      tensr_create, compute_size, compute_strides, liftQ, buf_read,
      TENSR_FLOAT32, TENSR_CPU, show List.range 2 = [0, 1] from rfl]
  exact ⟨hs,
    (add_size_dtype_contract.2.2.2.2 add_wit_a add_wit_b add_wit_r hs).2.2.2.2.1
      0 (3 / 2) 1 (by decide) rfl rfl (Or.inl rfl)⟩

/-- C3: saving a well-formed tensor of any recognized dtype and loading the
file back reconstructs a tensor with the same `ndim`, shape, dtype and size
and a bit-identical payload. -/
theorem save_load_round_trip (t : Tensor) (hwf : WF t)
    (hd : tensr_dtype_size t.dtype ≠ 0) :
    ∃ r, tensr_load (some (tensr_save t)) = some r ∧
      r.ndim = t.ndim ∧ r.shape = t.shape ∧ r.dtype = t.dtype ∧
      r.size = t.size ∧ r.data = t.data := by
  obtain ⟨hsz, hlen, _hstr⟩ := hwf
  have hbuf : buf_read t.data t.size = t.data := buf_read_self _ _ hlen
  refine ⟨{ tensr_create t.shape t.dtype TENSR_CPU with data := t.data }, ?_, rfl, rfl, rfl,
    hsz.symm, rfl⟩
  have hshape : read_meta_list t.ndim
      (t.shape.map StreamItem.meta ++ (buf_read t.data t.size).map .elem) =
      some (t.shape, (buf_read t.data t.size).map .elem) :=
    read_meta_list_append t.shape _
  simp only [tensr_load, tensr_save, read_meta, hshape, if_neg hd]
  rw [hbuf]
  rw [show take_elems t.size (t.data.map StreamItem.elem) = t.data from hlen ▸ take_elems_exact t.data]
  rw [overwrite_front_full]
  simp [tensr_create, hlen, hsz]

/-- Witness for C3: the concrete 2-by-2 int64 tensor of threes round-trips
through save and load. -/
theorem save_load_round_trip_witness :
    WF rt_input ∧ tensr_dtype_size rt_input.dtype ≠ 0 ∧
    (∃ r, tensr_load (some (tensr_save rt_input)) = some r ∧
      r.ndim = rt_input.ndim ∧ r.shape = rt_input.shape ∧ r.dtype = rt_input.dtype ∧
      r.size = rt_input.size ∧ r.data = rt_input.data) :=
  ⟨by decide, by decide, save_load_round_trip rt_input (by decide) (by decide)⟩

/-- C10: the full float reductions accept an empty tensor: with no elements
the accumulation loops never run, so `max` returns the `-FLT_MAX` /
`-DBL_MAX` sentinel and `min` returns `FLT_MAX` / `DBL_MAX`, in a one-cell
tensor of shape `[1]`. -/
theorem empty_reduction_sentinels (t : Tensor) (kd : Bool) (h : t.size = 0) :
    (t.dtype = TENSR_FLOAT32 →
      (tensr_max t [] kd).data = [Val.fval (-FLT_MAX)] ∧
      (tensr_min t [] kd).data = [Val.fval FLT_MAX]) ∧
    (t.dtype = TENSR_FLOAT64 →
      (tensr_max t [] kd).data = [Val.fval (-DBL_MAX)] ∧
      (tensr_min t [] kd).data = [Val.fval DBL_MAX]) ∧
    (tensr_max t [] kd).shape = [1] ∧ (tensr_min t [] kd).shape = [1] := by
  refine ⟨fun hd => ?_, fun hd => ?_, ?_, ?_⟩
  · constructor <;>
      simp [tensr_max, tensr_min, hd, h, buf_read, TENSR_FLOAT32, TENSR_FLOAT64]
  · constructor <;>
      simp [tensr_max, tensr_min, hd, h, buf_read, TENSR_FLOAT32, TENSR_FLOAT64]
  · simp only [tensr_max]
    split
    · rfl
    split
    · rfl
    · rfl
  · simp only [tensr_min]
    split
    · rfl
    split
    · rfl
    · rfl

/-- Witness for C10: the empty float32 tensor of shape `[0]` reduces to the
sentinels. -/
theorem empty_reduction_sentinels_witness :
    (tensr_max (tensr_create [0] TENSR_FLOAT32 TENSR_CPU) [] false).data =
      [Val.fval (-FLT_MAX)] ∧
    (tensr_min (tensr_create [0] TENSR_FLOAT32 TENSR_CPU) [] false).data =
      [Val.fval FLT_MAX] :=
  (empty_reduction_sentinels (tensr_create [0] TENSR_FLOAT32 TENSR_CPU) false (by decide)).1 rfl

/-- The C inner accumulation loop computes the specification's product
entry. -/
theorem mat_inner_eq_spec (a b : Tensor) (k n i j : Nat) :
    mat_inner a b k n i j = matmul_spec_entry a b k n i j := by
  rw [mat_inner, matmul_spec_entry,
    foldl_add_map (fun p => (a.data.getD (i * k + p) .unset).q * (b.data.getD (p * n + j) .unset).q),
    zero_add]

/-- C7 (amended): for a float32/float64 left operand, `tensr_matmul` fails
exactly when either operand is not 2-D or the inner dimensions differ, and
otherwise returns a `[m,n]` tensor whose `(i,j)` cell is the standard
matrix-product entry (the right operand's dtype is never compared).  The
specification's concrete test — `full([2,3],2) @ full([3,2],3)` — is the
all-18 2-by-2 tensor.  For non-float dtypes the computation is skipped (see
the counterexample). -/
theorem matmul_float_contract :
    (∀ a b : Tensor, (a.dtype = TENSR_FLOAT32 ∨ a.dtype = TENSR_FLOAT64) →
      (tensr_matmul a b = none ↔
        a.ndim ≠ 2 ∨ b.ndim ≠ 2 ∨ a.shape.getD 1 0 ≠ b.shape.getD 0 0) ∧
      (∀ r, tensr_matmul a b = some r →
        r.shape = [a.shape.getD 0 0, b.shape.getD 1 0] ∧ r.dtype = a.dtype ∧
        r.device = a.device ∧
        (∀ i j, i < a.shape.getD 0 0 → j < b.shape.getD 1 0 →
          r.data.getD (i * b.shape.getD 1 0 + j) .unset =
            Val.fval (matmul_spec_entry a b (a.shape.getD 1 0) (b.shape.getD 1 0) i j)))) ∧
    (tensr_matmul (tensr_full [2, 3] 2 TENSR_FLOAT32 TENSR_CPU)
        (tensr_full [3, 2] 3 TENSR_FLOAT32 TENSR_CPU)).map (fun r => (r.shape, r.data)) =
      some ([2, 2], List.replicate 4 (Val.fval 18)) := by
  constructor
  · intro a b hdt
    constructor
    · unfold tensr_matmul
      by_cases hg : a.ndim ≠ 2 ∨ b.ndim ≠ 2 ∨ a.shape.getD 1 0 ≠ b.shape.getD 0 0
      · rw [if_pos hg]
        exact iff_of_true rfl hg
      · rw [if_neg hg]
        constructor
        · intro hc
          exfalso
          revert hc
          repeat' split
          all_goals simp
        · intro hc
          exact absurd hc hg
    · intro r hr
      unfold tensr_matmul at hr
      split at hr
      · exact Option.noConfusion hr
      have hmain : ∀ hres : ({ tensr_zeros [a.shape.getD 0 0, b.shape.getD 1 0] a.dtype a.device with
          data := (List.range (a.shape.getD 0 0 * b.shape.getD 1 0)).map (fun idx =>
            .fval (mat_inner a b (a.shape.getD 1 0) (b.shape.getD 1 0)
              (idx / b.shape.getD 1 0) (idx % b.shape.getD 1 0))) } : Tensor) = r,
          r.shape = [a.shape.getD 0 0, b.shape.getD 1 0] ∧ r.dtype = a.dtype ∧
          r.device = a.device ∧
          (∀ i j, i < a.shape.getD 0 0 → j < b.shape.getD 1 0 →
            r.data.getD (i * b.shape.getD 1 0 + j) .unset =
              Val.fval (matmul_spec_entry a b (a.shape.getD 1 0) (b.shape.getD 1 0) i j)) := by
        intro hres
        subst hres
        refine ⟨rfl, rfl, rfl, ?_⟩
        intro i j hi hj
        have hn : 0 < b.shape.getD 1 0 := Nat.lt_of_le_of_lt (Nat.zero_le j) hj
        have hidx : i * b.shape.getD 1 0 + j < a.shape.getD 0 0 * b.shape.getD 1 0 := by
          have h1 : i * b.shape.getD 1 0 + j < (i + 1) * b.shape.getD 1 0 := by
            rw [Nat.succ_mul]
            omega
          exact Nat.lt_of_lt_of_le h1 (Nat.mul_le_mul_right _ hi)
        rw [getD_map_range _ _ _ hidx]
        have hdiv : (i * b.shape.getD 1 0 + j) / b.shape.getD 1 0 = i := by
          rw [Nat.add_comm, Nat.add_mul_div_right _ _ hn, Nat.div_eq_of_lt hj, Nat.zero_add]
        have hmod : (i * b.shape.getD 1 0 + j) % b.shape.getD 1 0 = j := by
          rw [Nat.add_comm, Nat.add_mul_mod_self_right, Nat.mod_eq_of_lt hj]
        rw [hdiv, hmod, mat_inner_eq_spec]
      split at hr
      · injection hr with hr
        exact hmain hr
      split at hr
      · injection hr with hr
        exact hmain hr
      · rename_i hc1 hc2
        rcases hdt with hd | hd
        · exact absurd hd hc1
        · exact absurd hd hc2
  · norm_num [tensr_matmul, mat_inner, tensr_full, tensr_create, tensr_zeros,
      buf_read, compute_size, compute_strides, zero_val, Tensor.ndim, Val.q,
      TENSR_FLOAT32, TENSR_FLOAT64, TENSR_CPU, List.replicate,
      show List.range 3 = [0, 1, 2] from rfl, show List.range 4 = [0, 1, 2, 3] from rfl,
      show List.range 6 = [0, 1, 2, 3, 4, 5] from rfl]

/-- Witness for C7: the float32 operands `[2,3]` and `[2,2]` have
mismatched inner dimensions, so `tensr_matmul` fails. -/
theorem matmul_float_contract_witness :
    tensr_matmul mm_a mm_b = none :=
  ((matmul_float_contract.1 mm_a mm_b (Or.inl rfl)).1).mpr (by decide)

/-- The shape, strides and size fields of `tensr_ones` coincide with those
of `tensr_create` in every dtype branch. -/
theorem tensr_ones_fields (shape : List Nat) (d dv : Nat) :
    (tensr_ones shape d dv).shape = shape ∧
    (tensr_ones shape d dv).strides = compute_strides shape ∧
    (tensr_ones shape d dv).size = compute_size shape := by
  simp only [tensr_ones]
  repeat' split
  all_goals exact ⟨rfl, rfl, rfl⟩

/-- The shape, strides and size fields of `tensr_full` coincide with those
of `tensr_create` in every dtype branch. -/
theorem tensr_full_fields (shape : List Nat) (v : ℚ) (d dv : Nat) :
    (tensr_full shape v d dv).shape = shape ∧
    (tensr_full shape v d dv).strides = compute_strides shape ∧
    (tensr_full shape v d dv).size = compute_size shape := by
  simp only [tensr_full]
  repeat' split
  all_goals exact ⟨rfl, rfl, rfl⟩

/-- The metadata of `tensr_arange` is that of a fresh 1-D tensor whose
extent is the C element count. -/
theorem tensr_arange_fields (start stop step : ℚ) (d dv : Nat) :
    (tensr_arange start stop step d dv).shape = [((stop - start) / step).ceil.toNat] ∧
    (tensr_arange start stop step d dv).strides =
      compute_strides [((stop - start) / step).ceil.toNat] ∧
    (tensr_arange start stop step d dv).size =
      compute_size [((stop - start) / step).ceil.toNat] := by
  simp only [tensr_arange]
  repeat' split
  all_goals exact ⟨rfl, rfl, rfl⟩

/-- The metadata of `tensr_linspace` is that of a fresh `[num]` tensor. -/
theorem tensr_linspace_fields (start stop : ℚ) (num d dv : Nat) :
    (tensr_linspace start stop num d dv).shape = [num] ∧
    (tensr_linspace start stop num d dv).strides = compute_strides [num] ∧
    (tensr_linspace start stop num d dv).size = compute_size [num] := by
  simp only [tensr_linspace]
  repeat' split
  all_goals exact ⟨rfl, rfl, rfl⟩

/-- The metadata of `tensr_eye` is that of a fresh `[n,n]` tensor. -/
theorem tensr_eye_fields (n d dv : Nat) :
    (tensr_eye n d dv).shape = [n, n] ∧
    (tensr_eye n d dv).strides = compute_strides [n, n] ∧
    (tensr_eye n d dv).size = compute_size [n, n] := by
  simp only [tensr_eye, tensr_zeros]
  repeat' split
  all_goals exact ⟨rfl, rfl, rfl⟩

/-- C9: every tensor returned by the creation and shape operations carries
contiguous row-major strides (`strides[ndim-1] = 1` and
`strides[i] = strides[i+1] * shape[i+1]`) and a size equal to the product
of its shape.  For `transpose` the axis list must be empty (default) or a
permutation of the dimensions, the function's documented precondition. -/
theorem factory_stride_invariants :
    (∀ (shape : List Nat) (d dv : Nat), shape ≠ [] →
      contiguous_inv (tensr_create shape d dv)) ∧
    (∀ (shape : List Nat) (d dv : Nat), shape ≠ [] →
      contiguous_inv (tensr_zeros shape d dv)) ∧
    (∀ (shape : List Nat) (d dv : Nat), shape ≠ [] →
      contiguous_inv (tensr_ones shape d dv)) ∧
    (∀ (shape : List Nat) (v : ℚ) (d dv : Nat), shape ≠ [] →
      contiguous_inv (tensr_full shape v d dv)) ∧
    (∀ (start stop step : ℚ) (d dv : Nat),
      contiguous_inv (tensr_arange start stop step d dv)) ∧
    (∀ (start stop : ℚ) (num d dv : Nat),
      contiguous_inv (tensr_linspace start stop num d dv)) ∧
    (∀ (n d dv : Nat), contiguous_inv (tensr_eye n d dv)) ∧
    (∀ src : Tensor, src.shape ≠ [] → contiguous_inv (tensr_copy src)) ∧
    (∀ (t : Tensor) (ns : List Nat) (r : Tensor),
      tensr_reshape t ns = some r → ns ≠ [] → contiguous_inv r) ∧
    (∀ (t : Tensor) (axes : List Nat), t.shape ≠ [] →
      (axes = [] ∨ axes.Perm (List.range t.ndim)) →
      contiguous_inv (tensr_transpose t axes)) := by
  refine ⟨?_, ?_, ?_, ?_, ?_, ?_, ?_, ?_, ?_, ?_⟩
  · intro shape d dv h
    exact contiguous_of _ h rfl rfl
  · intro shape d dv h
    exact contiguous_of _ h rfl rfl
  · intro shape d dv h
    obtain ⟨h1, h2, h3⟩ := tensr_ones_fields shape d dv
    exact contiguous_of _ (by rw [h1]; exact h) (by rw [h2, h1]) (by rw [h3, h1])
  · intro shape v d dv h
    obtain ⟨h1, h2, h3⟩ := tensr_full_fields shape v d dv
    exact contiguous_of _ (by rw [h1]; exact h) (by rw [h2, h1]) (by rw [h3, h1])
  · intro start stop step d dv
    obtain ⟨h1, h2, h3⟩ := tensr_arange_fields start stop step d dv
    exact contiguous_of _ (by rw [h1]; exact List.cons_ne_nil _ _) (by rw [h2, h1])
      (by rw [h3, h1])
  · intro start stop num d dv
    obtain ⟨h1, h2, h3⟩ := tensr_linspace_fields start stop num d dv
    exact contiguous_of _ (by rw [h1]; exact List.cons_ne_nil _ _) (by rw [h2, h1])
      (by rw [h3, h1])
  · intro n d dv
    obtain ⟨h1, h2, h3⟩ := tensr_eye_fields n d dv
    exact contiguous_of _ (by rw [h1]; exact List.cons_ne_nil _ _) (by rw [h2, h1])
      (by rw [h3, h1])
  · intro src h
    exact contiguous_of _ h rfl rfl
  · intro t ns r hr hns
    unfold tensr_reshape at hr
    split at hr
    · exact Option.noConfusion hr
    rename_i hg
    injection hr with hr
    subst hr
    refine contiguous_of _ hns rfl ?_
    show t.size = compute_size ns
    exact (not_ne_iff.mp hg).symm
  · intro t axes hS hperm
    rcases hperm with hax | hax
    · subst hax
      have hns : (List.range t.ndim).reverse.map (fun i => t.shape.getD i 0) =
          t.shape.reverse := by
        rw [List.map_reverse, show (List.range t.ndim).map (fun i => t.shape.getD i 0) =
          t.shape from map_getD_range t.shape 0]
      simp only [tensr_transpose, List.length_nil]
      rw [if_true, hns]
      refine contiguous_of _ ?_ rfl ?_
      · show t.shape.reverse ≠ []
        simpa using hS
      · show compute_size t.shape = compute_size t.shape.reverse
        rw [compute_size_eq_prod, compute_size_eq_prod, List.prod_reverse]
    · have hnd : t.ndim = t.shape.length := rfl
      have hlen0 : t.shape.length ≠ 0 := fun hc => hS (List.length_eq_zero.mp hc)
      have haxne : axes.length ≠ 0 := by
        have hl := hax.length_eq
        rw [List.length_range] at hl
        omega
      have hperm2 : (axes.map (fun i => t.shape.getD i 0)).Perm t.shape := by
        have h1 := hax.map (fun i => t.shape.getD i 0)
        rwa [show (List.range t.ndim).map (fun i => t.shape.getD i 0) = t.shape from
          map_getD_range t.shape 0] at h1
      simp only [tensr_transpose, if_neg haxne]
      refine contiguous_of _ ?_ rfl ?_
      · show axes.map (fun i => t.shape.getD i 0) ≠ []
        intro hc
        rw [hc] at hperm2
        exact hS (List.Perm.nil_eq hperm2).symm
      · show compute_size t.shape = compute_size (axes.map fun i => t.shape.getD i 0)
        rw [compute_size_eq_prod, compute_size_eq_prod, hperm2.prod_eq]

/-- Witness for C9: the invariant holds on a concrete `[2,3]` creation and
on a concrete `[1,0]`-permuted transpose. -/
theorem factory_stride_invariants_witness :
    contiguous_inv (tensr_create [2, 3] TENSR_FLOAT32 TENSR_CPU) ∧
    contiguous_inv (tensr_transpose (tensr_ones [2, 3] TENSR_INT32 TENSR_CPU) [1, 0]) := by
  constructor
  · exact factory_stride_invariants.1 [2, 3] TENSR_FLOAT32 TENSR_CPU (by decide)
  · exact factory_stride_invariants.2.2.2.2.2.2.2.2.2
      (tensr_ones [2, 3] TENSR_INT32 TENSR_CPU) [1, 0] (by decide) (Or.inr (by decide))
